import Mathlib

set_option maxHeartbeats 1000000
set_option maxRecDepth 10000

/-!
# A formal model of the interactive-map generator (`src/map.py`)

Shallow embedding of the bookmark-to-map generator: the media resolver
(`fetch_image_data_uri`, `extract_youtube_video_id`,
`get_youtube_thumbnail_data_uri`), the popup content builder
(`create_bookmark_content`), the geometry metrics
(`calculate_line_length`, `calculate_polygon_area`), the feature renderer
(`add_bookmark_to_map`) and the navigation-index portion of `create_map`.

Modelling conventions: Python dictionaries become structures of `Option`
fields (`none` = key absent); a Python `None` stored under a key becomes an
outer `Option` layer; raised exceptions become `Except PyErr`; JSON numbers
become rationals except geographic coordinates, which become real numbers so
that the Web-Mercator projection of `pyproj` can be expressed exactly; the
ambient network becomes a function giving, per URL, the outcome of
`requests.get`; Python's `"{:.2f}"` float formatting becomes an arbitrary
function `fmt2f` from reals to strings, quantified in every statement that
needs it.
-/

/-- Kinds of Python runtime exceptions the modelled code can raise. -/
inductive PyErr where
  | keyError
  | attributeError
  | valueError
  | indexError
  | typeError
  | zeroDivisionError
  | requestException
  deriving DecidableEq

/-- Outcome of `requests.get url`: either an HTTP response (status code,
declared `Content-Type` header, body bytes) or a transport-level failure,
which `requests` surfaces by raising an exception. -/
inductive HttpAttempt where
  | response (status : Nat) (contentType : Option String) (body : List Nat)
  | transportError

/-- The ambient network as seen by the generator: what `requests.get`
yields for each URL. -/
def Net := String → HttpAttempt

def b64chars : List Char :=
  ("ABCDEFGHIJKLMNOPQRSTUVWXYZabcdefghijklmnopqrstuvwxyz0123456789+/").data

def b64char (i : Nat) : Char := b64chars.getD i 'A'

/-- `base64.b64encode` on a byte sequence (bytes are naturals below 256). -/
def base64encode : List Nat → List Char
  | [] => []
  | [b1] => [b64char (b1 / 4), b64char (b1 % 4 * 16), '=', '=']
  | [b1, b2] => [b64char (b1 / 4), b64char (b1 % 4 * 16 + b2 / 16), b64char (b2 % 16 * 4), '=']
  | b1 :: b2 :: b3 :: rest =>
      b64char (b1 / 4) :: b64char (b1 % 4 * 16 + b2 / 16) ::
        b64char (b2 % 16 * 4 + b3 / 64) :: b64char (b3 % 64) :: base64encode rest

/-- `fetch_image_data_uri` (map.py lines 11-18): performs `requests.get`;
on status 200 builds a base64 data URI from the declared content type
(`headers.get('Content-Type', '')`) and the body; on any other status
returns the empty string.  A transport error is not caught anywhere:
`requests.get` raises and the exception propagates out of the function. -/
def fetch_image_data_uri (net : Net) (url : String) : Except PyErr String :=
  match net url with
  | .transportError => .error .requestException
  | .response status contentType body =>
      if status = 200 then
        .ok ("data:" ++ contentType.getD "" ++ ";base64," ++ String.mk (base64encode body))
      else
        .ok ""

/-- Result of `urllib.parse.urlparse` restricted to the three fields the
code reads: `hostname` (lower-cased, `none` when absent), `path`, `query`. -/
structure ParsedUrl where
  hostname : Option String
  path : List Char
  query : List Char

/-- Python `str.split(sep)` on character lists:
`''.split(sep) = ['']`, and each occurrence of `sep` opens a new chunk. -/
def pySplit (sep : Char) : List Char → List (List Char)
  | [] => [[]]
  | c :: cs =>
      match pySplit sep cs with
      | [] => [[]]
      | r :: rs => if c = sep then [] :: r :: rs else (c :: r) :: rs

/-- `urllib.parse.parse_qs(query).get(key, [None])[0]`: the first value
bound to `key` in the query string; pairs with an empty value are dropped
(the `parse_qsl` default).  Percent-decoding is not modelled. -/
def parse_qs_first (key : List Char) (query : List Char) : Option (List Char) :=
  (pySplit '&' query).findSome? fun pair =>
    let name := pair.takeWhile (fun c => c != '=')
    let value := (pair.dropWhile (fun c => c != '=')).drop 1
    if name = key ∧ value ≠ [] then some value else none

/-- `extract_youtube_video_id` (map.py lines 20-29), applied to an already
parsed URL: dispatch on hostname, then on path shape.  `path[1:]` is
`path.drop 1`; `path.split('/')[2]` is guarded by the `/embed/` check so
the index is always in bounds, hence the `getD`. -/
def extractVideoId (p : ParsedUrl) : Option String :=
  if p.hostname = some "youtu.be" then
    some (String.mk (p.path.drop 1))
  else if p.hostname = some "www.youtube.com" ∨ p.hostname = some "youtube.com" then
    if p.path = ("/watch").data then
      (parse_qs_first ("v").data p.query).map String.mk
    else if (("/embed/").data).isPrefixOf p.path then
      some (String.mk ((pySplit '/' p.path).getD 2 []))
    else
      none
  else
    none

/-- Drop everything up to and including the first occurrence of `pat`;
`none` when `pat` does not occur. -/
def afterSublist (pat : List Char) : List Char → Option (List Char)
  | [] => none
  | c :: cs =>
      if pat.isPrefixOf (c :: cs) then some ((c :: cs).drop pat.length)
      else afterSublist pat cs

/-- Model of `urllib.parse.urlparse` for the URLs this program meets: an
absolute `scheme://netloc/path?query` URL.  Without `://` everything is
path and there is no hostname.  The hostname is the netloc lower-cased
with user-info and port stripped; fragments after `#` are cut; IPv6
brackets are not modelled. -/
def urlparse (url : String) : ParsedUrl :=
  match afterSublist ("://").data url.data with
  | none => { hostname := none, path := url.data, query := [] }
  | some rest =>
      let netloc := rest.takeWhile (fun c => !(c == '/' || c == '?' || c == '#'))
      let rest2 := rest.dropWhile (fun c => !(c == '/' || c == '?' || c == '#'))
      let path := rest2.takeWhile (fun c => !(c == '?' || c == '#'))
      let afterPath := rest2.dropWhile (fun c => !(c == '?' || c == '#'))
      let query :=
        if afterPath.head? = some '?' then (afterPath.drop 1).takeWhile (fun c => c != '#')
        else []
      let hostPort := (netloc.reverse.takeWhile (fun c => c != '@')).reverse
      let host := (hostPort.takeWhile (fun c => c != ':')).map Char.toLower
      { hostname := if host = [] then none else some (String.mk host),
        path := path, query := query }

/-- `extract_youtube_video_id` on a raw URL string. -/
def extract_youtube_video_id (url : String) : Option String :=
  extractVideoId (urlparse url)

/-- `get_youtube_thumbnail_data_uri` (map.py lines 31-37): extract the
video id; when truthy (`if video_id:`), fetch the `hqdefault.jpg`
thumbnail, else return the empty string. -/
def get_youtube_thumbnail_data_uri (net : Net) (video_url : String) : Except PyErr String :=
  match extract_youtube_video_id video_url with
  | some vid =>
      if vid ≠ "" then
        fetch_image_data_uri net ("https://img.youtube.com/vi/" ++ vid ++ "/hqdefault.jpg")
      else .ok ""
  | none => .ok ""

/-- A bookmark `content` dictionary.  Each field is `none` when the key is
absent; a key bound to JSON `null` behaves identically to an absent key in
every read the code performs on these four keys (`.get` everywhere except
`content['url']`, which the model reflects by raising on `none`). -/
structure ContentDict where
  type : Option String := none
  url : Option String := none
  title : Option String := none
  text : Option String := none
  deriving DecidableEq

/-- Python truthiness of the content dict: empty is falsy. -/
def ContentDict.isFalsy (c : ContentDict) : Bool :=
  c.type.isNone && c.url.isNone && c.title.isNone && c.text.isNone

/-- The f-string of the `video` branch (map.py lines 60-68), verbatim. -/
def videoHtml (title url dataUri : String) : String :=
  "\n            <div class=\"modal-content\">\n                <h3>" ++ title ++
  "</h3>\n                <a href=\"" ++ url ++
  "\" target=\"_blank\">\n                    <img src=\"" ++ dataUri ++
  "\" alt=\"" ++ title ++
  "\" style=\"max-width:100%;\">\n                </a>\n                <p>Click the image to watch the video.</p>\n            </div>\n        "

/-- The f-string of the `image` branch (map.py lines 71-76), verbatim. -/
def imageHtml (title dataUri : String) : String :=
  "\n            <div class=\"modal-content\">\n                <h3>" ++ title ++
  "</h3>\n                <img src=\"" ++ dataUri ++
  "\" alt=\"" ++ title ++
  "\" style=\"max-width:100%;\">\n            </div>\n        "

/-- The f-string of the `text` branch (map.py lines 78-83), verbatim:
`title` and `text` are interpolated with no escaping of any kind. -/
def textHtml (title text : String) : String :=
  "\n            <div class=\"modal-content\">\n                <h3>" ++ title ++
  "</h3>\n                <p>" ++ text ++
  "</p>\n            </div>\n        "

/-- `create_bookmark_content` (map.py lines 54-85).  The argument is the
value of the bookmark's `content` key: `none` models Python `None`, which,
like an empty dict, is falsy and yields the empty fragment.
`content['url']` is a bare subscript and raises `KeyError` when the key is
absent. -/
def create_bookmark_content (net : Net) (content : Option ContentDict) :
    Except PyErr String :=
  match content with
  | none => .ok ""
  | some c =>
      if c.isFalsy then .ok ""
      else if c.type = some "video" then
        match c.url with
        | none => .error .keyError
        | some u =>
            match get_youtube_thumbnail_data_uri net u with
            | .error e => .error e
            | .ok img => .ok (videoHtml (c.title.getD "") u img)
      else if c.type = some "image" then
        match c.url with
        | none => .error .keyError
        | some u =>
            match fetch_image_data_uri net u with
            | .error e => .error e
            | .ok img => .ok (imageHtml (c.title.getD "") img)
      else if c.type = some "text" then
        .ok (textHtml (c.title.getD "") (c.text.getD ""))
      else .ok ""

/-- Forward Web-Mercator projection (EPSG:4326 → EPSG:3857) of a single
`(lon, lat)` vertex, as performed by the `pyproj.Transformer` the code
builds; `R = 6378137` m is the WGS84 semi-major axis. -/
noncomputable def webMercator (p : ℝ × ℝ) : ℝ × ℝ :=
  (6378137 * (p.1 * Real.pi / 180),
   6378137 * Real.log (Real.tan (Real.pi / 4 + p.2 * Real.pi / 360)))

/-- Euclidean distance between two projected vertices. -/
noncomputable def dist2 (p q : ℝ × ℝ) : ℝ :=
  Real.sqrt ((q.1 - p.1) ^ 2 + (q.2 - p.2) ^ 2)

/-- Length of a projected polyline: sum of the lengths of consecutive
segments (`shapely` `LineString.length`). -/
noncomputable def pathLength : List (ℝ × ℝ) → ℝ
  | [] => 0
  | [_] => 0
  | p :: q :: rest => dist2 p q + pathLength (q :: rest)

/-- The numeric core of `calculate_line_length` (map.py lines 87-100):
project every vertex, take the planar length, convert metres to miles. -/
noncomputable def lineLengthMiles (coordinates : List (ℝ × ℝ)) : ℝ :=
  pathLength (coordinates.map webMercator) / 1609.34

/-- `calculate_line_length` (map.py lines 87-100).  `shapely` accepts the
empty sequence (an empty line of length 0) but raises on a single point. -/
noncomputable def calculate_line_length (coordinates : List (ℝ × ℝ)) :
    Except PyErr ℝ :=
  if coordinates.length = 1 then .error .valueError
  else .ok (lineLengthMiles coordinates)

/-- One cross term of the shoelace formula. -/
def cross2 (p q : ℝ × ℝ) : ℝ := p.1 * q.2 - q.1 * p.2

/-- Shoelace sum of a ring, closed back to `first`. -/
def shoelaceFrom (first : ℝ × ℝ) : List (ℝ × ℝ) → ℝ
  | [] => 0
  | [q] => cross2 q first
  | q :: r :: rest => cross2 q r + shoelaceFrom first (r :: rest)

def shoelaceSum : List (ℝ × ℝ) → ℝ
  | [] => 0
  | p :: ps => shoelaceFrom p (p :: ps)

/-- Unsigned area of a projected ring: `shapely` `Polygon.area` is the
absolute value of the signed shoelace area. -/
noncomputable def ringArea (pts : List (ℝ × ℝ)) : ℝ := |shoelaceSum pts| / 2

/-- `calculate_polygon_area` (map.py lines 102-115): area of the first
ring only (`coordinates[0]`), Web-Mercator projected, m² → mi²
(division by 2.59e+6).  An empty ring list raises `IndexError` at the
subscript.  `shapely` closes a ring by appending the first point unless
the last point already repeats it, and a non-empty closed ring must have
at least four coordinates, so the `Polygon` constructor raises exactly
when the ring has one or two points, or three points with the first
repeated as the last; the empty ring is accepted with area 0. -/
noncomputable def calculate_polygon_area (coordinates : List (List (ℝ × ℝ))) :
    Except PyErr ℝ :=
  match coordinates with
  | [] => .error .indexError
  | ring :: _ =>
      if ring.length = 1 ∨ ring.length = 2 ∨
          (ring.length = 3 ∧ ring.head? = ring.getLast?) then .error .valueError
      else .ok (ringArea (ring.map webMercator) / 2590000)

/-- The `coordinates` value of a geometry dict, by JSON shape.  `empty`
is the default `[]` supplied when the key is absent. -/
inductive Coordinates where
  | empty
  | pair (lon lat : ℝ)
  | list1 (points : List (ℝ × ℝ))
  | list2 (rings : List (List (ℝ × ℝ)))

/-- A bookmark `geometry` dictionary. -/
structure GeometryDict where
  type : Option String := none
  coordinates : Coordinates := .empty

/-- A bookmark `style` dictionary. -/
structure StyleDict where
  color : Option String := none
  weight : Option ℚ := none
  opacity : Option ℚ := none
  fillColor : Option String := none
  fillOpacity : Option ℚ := none

/-- One bookmark record.  `content` has two `Option` layers: the outer one
models key absence, the inner one a key bound to JSON `null` (Python
`None`), which `add_bookmark_to_map` handles differently. -/
structure Bookmark where
  title : Option String := none
  geometry : Option GeometryDict := none
  content : Option (Option ContentDict) := none
  style : Option StyleDict := none
  tile_layer : Option String := none
  zoom : Option ℚ := none

/-- The dict returned by `add_bookmark_to_map` (map.py lines 199-204). -/
structure NavEntry where
  lat : ℝ
  lon : ℝ
  zoom : ℚ
  tile_layer : String

/-- A rendered map feature added to the folium map, with the argument
values the code passes.  The `icon` of a marker is the resolved icon name
chosen by `create_custom_icon`. -/
inductive Feature where
  | marker (location : ℝ × ℝ) (popup : String) (icon : String) (tooltip : String)
  | polyline (locations : List (ℝ × ℝ)) (color : String) (weight : ℚ)
      (opacity : ℚ) (tooltip : String) (popup : String)
  | filledPolygon (locations : List (ℝ × ℝ)) (color : String) (weight : ℚ)
      (fillColor : String) (fillOpacity : ℚ) (tooltip : String) (popup : String)

/-- The popup attached to a feature. -/
def Feature.popup : Feature → String
  | .marker _ p _ _ => p
  | .polyline _ _ _ _ _ p => p
  | .filledPolygon _ _ _ _ _ _ p => p

/-- What one call of `add_bookmark_to_map` does to the map, plus its
return value: features added, diagnostics printed, navigation entry. -/
structure RenderResult where
  features : List Feature
  diagnostics : List String
  nav : NavEntry

/-- Python str() of an optional string, as an f-string renders it. -/
def pyOptStr : Option String → String
  | none => "None"
  | some s => s

/-- The `icon_map` of `create_custom_icon` (map.py lines 41-46). -/
def icon_map : List (String × String) :=
  [("video", "video-camera"), ("image", "camera"),
   ("text", "align-left"), ("info-sign", "info-sign")]

/-- `create_custom_icon` (map.py lines 39-52), reduced to the varying
argument: the resolved icon name (`icon_map.get(icon_type, 'info-sign')`). -/
def create_custom_icon (icon_type : String) : String :=
  (icon_map.lookup icon_type).getD "info-sign"

/-- The body of `add_bookmark_to_map` once `popup_content` has been built
(map.py lines 117-204).  `fmt2f` models Python `f"{x:.2f}"` formatting.
Notes kept faithful to the source: the Point branch reads
`content.get('type', 'info-sign')`, which raises `AttributeError` when the
content value is `None`; the LineString midpoint subscript raises
`IndexError` on an empty coordinate list; the Polygon centroid divides by
`len(latlngs)` and raises `ZeroDivisionError` on an empty first ring. -/
noncomputable def addBookmarkCore (fmt2f : ℝ → String) (b : Bookmark)
    (center : ℝ × ℝ) (popup_content : String) : Except PyErr RenderResult :=
  let geometry := b.geometry.getD {}
  let geom_type := geometry.type
  let coordinates := geometry.coordinates
  let tile_layer := b.tile_layer.getD "Positron"
  let title := b.title.getD "Untitled"
  let content := b.content.getD (some {})
  let style := b.style.getD {}
  if geom_type = some "Point" then
    match coordinates with
    | .pair lon lat =>
        match content with
        | none => .error .attributeError
        | some c =>
            .ok { features := [.marker (lat, lon) popup_content
                    (create_custom_icon (c.type.getD "info-sign")) title],
                  diagnostics := [],
                  nav := { lat := lat, lon := lon, zoom := b.zoom.getD 13,
                           tile_layer := tile_layer } }
    | _ => .error .typeError
  else if geom_type = some "LineString" then
    match coordinates with
    | .list1 pts =>
        let latlngs := pts.map (fun p => (p.2, p.1))
        match calculate_line_length pts with
        | .error e => .error e
        | .ok len =>
            let length_str := "Length: " ++ fmt2f len ++ " miles"
            let popup :=
              if popup_content = "" then
                "<div class=\x27modal-content\x27><h3>" ++ title ++ "</h3><p>" ++
                  length_str ++ "</p></div>"
              else popup_content ++ "<p>" ++ length_str ++ "</p>"
            match latlngs[latlngs.length / 2]? with
            | none => .error .indexError
            | some loc =>
                .ok { features := [.polyline latlngs (style.color.getD "blue")
                        (style.weight.getD 5) (style.opacity.getD 0.7) title popup],
                      diagnostics := [],
                      nav := { lat := loc.1, lon := loc.2, zoom := b.zoom.getD 13,
                               tile_layer := tile_layer } }
    | _ => .error .typeError
  else if geom_type = some "Polygon" then
    match coordinates with
    | .list2 rings =>
        match rings with
        | [] => .error .indexError
        | ring :: _ =>
            let latlngs := ring.map (fun p => (p.2, p.1))
            match calculate_polygon_area rings with
            | .error e => .error e
            | .ok area =>
                let area_str := "Area: " ++ fmt2f area ++ " square miles"
                let popup :=
                  if popup_content = "" then
                    "<div class=\x27modal-content\x27><h3>" ++ title ++ "</h3><p>" ++
                      area_str ++ "</p></div>"
                  else popup_content ++ "<p>" ++ area_str ++ "</p>"
                if latlngs.length = 0 then .error .zeroDivisionError
                else
                  .ok { features := [.filledPolygon latlngs (style.color.getD "red")
                          (style.weight.getD 2) (style.fillColor.getD "red")
                          (style.fillOpacity.getD 0.5) title popup],
                        diagnostics := [],
                        nav := { lat := (latlngs.map Prod.fst).sum / (latlngs.length : ℝ),
                                 lon := (latlngs.map Prod.snd).sum / (latlngs.length : ℝ),
                                 zoom := b.zoom.getD 13, tile_layer := tile_layer } }
    | _ => .error .typeError
  else
    .ok { features := [],
          diagnostics := ["Unsupported geometry type: " ++ pyOptStr geom_type],
          nav := { lat := center.1, lon := center.2, zoom := b.zoom.getD 13,
                   tile_layer := b.tile_layer.getD "Positron" } }

/-- `add_bookmark_to_map` (map.py lines 117-204): builds the popup content
first (line 124, which may raise) and then renders by geometry type. -/
noncomputable def add_bookmark_to_map (net : Net) (fmt2f : ℝ → String)
    (b : Bookmark) (center : ℝ × ℝ) : Except PyErr RenderResult :=
  match create_bookmark_content net (b.content.getD (some {})) with
  | .error e => .error e
  | .ok popup_content => addBookmarkCore fmt2f b center popup_content

/-- Sequencing of fallible calls over a list, stopping at the first
exception (the behaviour of a Python `for` loop of calls). -/
def exceptMapM {α ε β : Type _} (f : α → Except ε β) : List α → Except ε (List β)
  | [] => .ok []
  | a :: as =>
      match f a with
      | .error e => .error e
      | .ok b =>
          match exceptMapM f as with
          | .error e => .error e
          | .ok bs => .ok (b :: bs)

/-- One navigation link of the pane (map.py lines 376-379), with the
enumeration index baked into the inline `zoomToLocation` call.
`bookmark["title"]` is a bare subscript in the source. -/
def nav_link (i : Nat) (title : String) : String :=
  "<a class=\"bookmark-link\" href=\"#\" onclick=\"zoomToLocation(" ++ toString i ++
  "); return false;\">" ++ title ++ "</a>"

/-- The navigation-relevant part of `create_map` (map.py lines 292-298 and
376-379): render every bookmark in input order, collecting `locations_js`
keyed by enumeration index, then build one pane link per bookmark. -/
noncomputable def create_map_nav (net : Net) (fmt2f : ℝ → String)
    (bookmarks : List Bookmark) (center : ℝ × ℝ) :
    Except PyErr (List (Nat × NavEntry) × List String) :=
  match exceptMapM (fun b => add_bookmark_to_map net fmt2f b center) bookmarks with
  | .error e => .error e
  | .ok results =>
      let locations := (List.range bookmarks.length).zip (results.map RenderResult.nav)
      match exceptMapM (fun p : Nat × Bookmark =>
          match p.2.title with
          | none => .error PyErr.keyError
          | some t => .ok (nav_link p.1 t)) bookmarks.enum with
      | .error e => .error e
      | .ok links => .ok (locations, links)

/-- Claim C1, counterexample: on a transport error `requests.get` raises
and `fetch_image_data_uri` propagates the exception — it does not return
the empty string, so the function is not exception-free on every URL. -/
theorem claim_C1_counterexample :
    fetch_image_data_uri (fun _ => .transportError) "http://example.com/a.png" =
      .error .requestException := rfl

/-- Claim C1, amended: on an HTTP 200 response `fetch_image_data_uri`
returns the base64 data URI built from the body and the declared content
type; on any non-200 status it returns the empty string; but a transport
error is not caught and propagates as an exception. -/
theorem claim_C1 (net : Net) (url : String) :
    (∀ (status : Nat) (contentType : Option String) (body : List Nat),
        net url = .response status contentType body →
          fetch_image_data_uri net url =
            if status = 200 then
              .ok ("data:" ++ contentType.getD "" ++ ";base64," ++
                String.mk (base64encode body))
            else .ok "")
    ∧ (net url = .transportError →
        fetch_image_data_uri net url = .error .requestException) := by
  constructor
  · intro status contentType body h
    unfold fetch_image_data_uri
    rw [h]
  · intro h
    unfold fetch_image_data_uri
    rw [h]

/-- Claim C1, witness: a simulated 404 yields the empty string. -/
theorem claim_C1_witness :
    fetch_image_data_uri (fun _ => .response 404 none []) "http://example.com/a.png" =
      .ok "" := by
  have h := (claim_C1 (fun _ => .response 404 none []) "http://example.com/a.png").1
    404 none [] rfl
  rw [if_neg (by decide)] at h
  exact h

/-- Claim C2, code bug: the text branch of `create_bookmark_content`
interpolates `title` and `text` verbatim; at title `<b>T</b>` and text
`a & b` the fragment contains the raw markup and no HTML-escaped form
(`&lt;` and `&amp;` are absent), so nothing is escaped. -/
theorem claim_C2_bug :
    create_bookmark_content (fun _ => .transportError)
        (some { type := some "text", title := some "<b>T</b>", text := some "a & b" }) =
      .ok ("\n            <div class=\"modal-content\">\n                <h3><b>T</b></h3>\n                <p>a & b</p>\n            </div>\n        ")
    ∧ (("<b>T</b>").data <:+: (textHtml "<b>T</b>" "a & b").data)
    ∧ ¬ (("&lt;").data <:+: (textHtml "<b>T</b>" "a & b").data)
    ∧ ¬ (("&amp;").data <:+: (textHtml "<b>T</b>" "a & b").data) :=
  ⟨rfl, by decide, by decide, by decide⟩

/-- `str.split` on a list free of the separator returns the single chunk. -/
theorem pySplit_of_not_mem {sep : Char} {l : List Char} (h : sep ∉ l) :
    pySplit sep l = [l] := by
  induction l with
  | nil => rfl
  | cons c cs ih =>
      have hc : ¬ c = sep := by
        intro e
        exact h (e ▸ List.mem_cons_self c cs)
      have hcs : sep ∉ cs := fun m => h (List.mem_cons_of_mem c m)
      unfold pySplit
      rw [ih hcs]
      simp [hc]

/-- The one-step unfolding of `pySplit`. -/
theorem pySplit_cons (sep c : Char) (cs : List Char) :
    pySplit sep (c :: cs) =
      match pySplit sep cs with
      | [] => [[]]
      | r :: rs => if c = sep then [] :: r :: rs else (c :: r) :: rs := rfl

/-- Splitting an `/embed/<id>` path at slashes, for a slash-free id. -/
theorem pySplit_embed_path {id : List Char} (h : '/' ∉ id) :
    pySplit '/' ('/' :: 'e' :: 'm' :: 'b' :: 'e' :: 'd' :: '/' :: id) =
      [[], ['e', 'm', 'b', 'e', 'd'], id] := by
  have h1 : pySplit '/' id = [id] := pySplit_of_not_mem h
  rw [pySplit_cons, pySplit_cons, pySplit_cons, pySplit_cons, pySplit_cons,
    pySplit_cons, pySplit_cons, h1]
  simp

/-- `parse_qs` on a query of the exact shape `v=<id>`. -/
theorem parse_qs_first_v {id : List Char} (hne : id ≠ []) (hamp : '&' ∉ id) :
    parse_qs_first ("v").data ('v' :: '=' :: id) = some id := by
  have h1 : pySplit '&' ('v' :: '=' :: id) = ['v' :: '=' :: id] :=
    pySplit_of_not_mem (by simp [hamp])
  unfold parse_qs_first
  rw [h1]
  simp [List.findSome?, hne]

/-- Claim C3: `extract_youtube_video_id` returns the id for the three
recognized URL shapes — `youtu.be/<id>`, `youtube.com/watch?v=<id>` with
or without `www`, `youtube.com/embed/<id>` — and `None` for every parsed
URL of any other host, or of another path on the youtube.com hosts. -/
theorem claim_C3 :
    (∀ (id q : List Char),
        extractVideoId ⟨some "youtu.be", '/' :: id, q⟩ = some (String.mk id))
    ∧ (∀ host : String, (host = "youtube.com" ∨ host = "www.youtube.com") →
        ∀ id : List Char, id ≠ [] → '&' ∉ id →
          extractVideoId ⟨some host, ("/watch").data, 'v' :: '=' :: id⟩ =
            some (String.mk id))
    ∧ (∀ host : String, (host = "youtube.com" ∨ host = "www.youtube.com") →
        ∀ (id q : List Char), '/' ∉ id →
          extractVideoId ⟨some host, ("/embed/").data ++ id, q⟩ =
            some (String.mk id))
    ∧ (∀ p : ParsedUrl, p.hostname ≠ some "youtu.be" →
        p.hostname ≠ some "youtube.com" → p.hostname ≠ some "www.youtube.com" →
          extractVideoId p = none)
    ∧ (∀ p : ParsedUrl,
        (p.hostname = some "youtube.com" ∨ p.hostname = some "www.youtube.com") →
        p.path ≠ ("/watch").data → ¬ (("/embed/").data <+: p.path) →
          extractVideoId p = none) := by
  refine ⟨?_, ?_, ?_, ?_, ?_⟩
  · intro id q
    simp [extractVideoId]
  · rintro host (rfl | rfl) id hne hamp <;>
      · show (parse_qs_first (("v").data) ('v' :: '=' :: id)).map String.mk =
          some (String.mk id)
        rw [parse_qs_first_v hne hamp]
        rfl
  · rintro host (rfl | rfl) id q hid <;>
      · simp [extractVideoId, List.isPrefixOf_iff_prefix, List.prefix_append,
          pySplit_embed_path hid]
  · intro p h1 h2 h3
    unfold extractVideoId
    rw [if_neg h1, if_neg (by simp [h2, h3])]
  · intro p hh hw he
    unfold extractVideoId
    rw [if_neg ?notbe, if_pos (by tauto), if_neg hw, if_neg ?notemb]
    case notbe =>
      rcases hh with h | h <;> simp [h]
    case notemb =>
      simp [ List.isPrefixOf_iff_prefix]
      exact he

/-- Claim C3, witness: the `watch?v=` shape at a concrete id. -/
theorem claim_C3_witness :
    extractVideoId ⟨some "youtube.com", ("/watch").data, 'v' :: '=' :: ("abc123").data⟩ =
      some "abc123" :=
  claim_C3.2.1 "youtube.com" (Or.inl rfl) (("abc123").data) (by decide) (by decide)

/-- A three-point explicitly-closed ring fails the ring validation: the
ring already repeats its first point, so it stays at three coordinates
when closed, below the four a closed ring requires, and the `Polygon`
constructor raises. -/
theorem polygon_area_closed_triangle :
    calculate_polygon_area [[((0:ℝ), (0:ℝ)), ((1:ℝ), (1:ℝ)), ((0:ℝ), (0:ℝ))]] =
      .error .valueError := by
  have hcond :
      ([((0:ℝ), (0:ℝ)), ((1:ℝ), (1:ℝ)), ((0:ℝ), (0:ℝ))] : List (ℝ × ℝ)).length = 1 ∨
      ([((0:ℝ), (0:ℝ)), ((1:ℝ), (1:ℝ)), ((0:ℝ), (0:ℝ))] : List (ℝ × ℝ)).length = 2 ∨
      (([((0:ℝ), (0:ℝ)), ((1:ℝ), (1:ℝ)), ((0:ℝ), (0:ℝ))] : List (ℝ × ℝ)).length = 3 ∧
        ([((0:ℝ), (0:ℝ)), ((1:ℝ), (1:ℝ)), ((0:ℝ), (0:ℝ))] : List (ℝ × ℝ)).head? =
          ([((0:ℝ), (0:ℝ)), ((1:ℝ), (1:ℝ)), ((0:ℝ), (0:ℝ))] : List (ℝ × ℝ)).getLast?) :=
    Or.inr (Or.inr ⟨rfl, rfl⟩)
  simp only [calculate_polygon_area]
  rw [if_pos hcond]

/-- Claim C5, counterexample: the outer ring `[(0,0),(1,1),(0,0)]` has
three points, yet `calculate_polygon_area` fails on it — shapely rejects
a closed ring of fewer than four coordinates — so the claim's
"every outer ring of at least 3 points succeeds" is false. -/
theorem claim_C5_counterexample :
    calculate_polygon_area [[((0:ℝ), (0:ℝ)), ((1:ℝ), (1:ℝ)), ((0:ℝ), (0:ℝ))]] =
      .error .valueError :=
  polygon_area_closed_triangle

/-- Claim C5, amended: for every polygon whose outer ring has at least 3
points and is not a three-point explicitly-closed ring (first point
repeated as the last), `calculate_polygon_area` succeeds, the value is
non-negative (and finite: the model is real-valued), and it depends only
on the first ring — the remaining rings (holes) never influence the
result. -/
theorem claim_C5 (outer : List (ℝ × ℝ)) (rest : List (List (ℝ × ℝ)))
    (h : 3 ≤ outer.length)
    (hopen : outer.length = 3 → outer.head? ≠ outer.getLast?) :
    ∃ a : ℝ, calculate_polygon_area (outer :: rest) = .ok a ∧ 0 ≤ a ∧
      ∀ rest2 : List (List (ℝ × ℝ)), calculate_polygon_area (outer :: rest2) = .ok a := by
  have hno : ¬ (outer.length = 1 ∨ outer.length = 2 ∨
      (outer.length = 3 ∧ outer.head? = outer.getLast?)) := by
    rintro (h1 | h2 | ⟨h3, hcl⟩)
    · omega
    · omega
    · exact hopen h3 hcl
  refine ⟨ringArea (outer.map webMercator) / 2590000, ?_, ?_, ?_⟩
  · simp only [calculate_polygon_area]
    rw [if_neg hno]
  · have h1 : 0 ≤ ringArea (outer.map webMercator) := by
      unfold ringArea
      positivity
    exact div_nonneg h1 (by norm_num)
  · intro rest2
    simp only [calculate_polygon_area]
    rw [if_neg hno]

/-- Claim C5, witness: a concrete triangle, with no further rings. -/
theorem claim_C5_witness :
    ∃ a : ℝ,
      calculate_polygon_area [[((0:ℝ), (0:ℝ)), ((1:ℝ), (0:ℝ)), ((0:ℝ), (1:ℝ))]] = .ok a ∧
      0 ≤ a ∧
      ∀ rest2,
        calculate_polygon_area ([((0:ℝ), (0:ℝ)), ((1:ℝ), (0:ℝ)), ((0:ℝ), (1:ℝ))] :: rest2) =
          .ok a :=
  claim_C5 _ [] (by simp) (by intro _; simp [Prod.ext_iff])

/-- The Euclidean segment length is symmetric in its endpoints. -/
theorem dist2_comm (p q : ℝ × ℝ) : dist2 p q = dist2 q p := by
  unfold dist2
  congr 1
  ring

/-- Appending one point adds the distance from the previous last point. -/
theorem pathLength_append_one (xs : List (ℝ × ℝ)) (y : ℝ × ℝ) :
    pathLength (xs ++ [y]) = pathLength xs + ((xs.getLast?).elim 0 fun x => dist2 x y) := by
  induction xs with
  | nil => simp [pathLength]
  | cons a tail ih =>
      cases tail with
      | nil => simp [pathLength]
      | cons b tb =>
          rw [show ((a :: b :: tb) ++ [y]) = a :: ((b :: tb) ++ [y]) from rfl]
          rw [show pathLength (a :: ((b :: tb) ++ [y])) =
            dist2 a b + pathLength ((b :: tb) ++ [y]) from rfl]
          rw [ih, List.getLast?_cons_cons]
          rw [show pathLength (a :: b :: tb) = dist2 a b + pathLength (b :: tb) from rfl]
          ring

/-- The polyline length is invariant under list reversal. -/
theorem pathLength_reverse (l : List (ℝ × ℝ)) : pathLength l.reverse = pathLength l := by
  induction l with
  | nil => rfl
  | cons a tail ih =>
      rw [List.reverse_cons, pathLength_append_one, ih, List.getLast?_reverse]
      cases tail with
      | nil => simp [pathLength]
      | cons b tb =>
          show pathLength (b :: tb) + dist2 b a = pathLength (a :: b :: tb)
          rw [dist2_comm b a]
          rw [show pathLength (a :: b :: tb) = dist2 a b + pathLength (b :: tb) from rfl]
          ring

/-- Claim C6: for every coordinate list of at least two points, the line
length of the reversed list equals the line length of the original list. -/
theorem claim_C6 (pts : List (ℝ × ℝ)) (h : 2 ≤ pts.length) :
    calculate_line_length pts.reverse = calculate_line_length pts := by
  unfold calculate_line_length lineLengthMiles
  rw [List.length_reverse, List.map_reverse, pathLength_reverse]

/-- Claim C6, witness: a concrete two-point line. -/
theorem claim_C6_witness :
    calculate_line_length ([((0:ℝ), (0:ℝ)), ((1:ℝ), (1:ℝ))].reverse) =
      calculate_line_length [((0:ℝ), (0:ℝ)), ((1:ℝ), (1:ℝ))] :=
  claim_C6 _ (by simp)

/-- When the popup builder succeeds, `add_bookmark_to_map` is its core. -/
theorem add_bookmark_popup_ok {net : Net} {fmt2f : ℝ → String} {b : Bookmark}
    {center : ℝ × ℝ} {pc : String}
    (hc : create_bookmark_content net (b.content.getD (some {})) = .ok pc) :
    add_bookmark_to_map net fmt2f b center = addBookmarkCore fmt2f b center pc := by
  unfold add_bookmark_to_map
  rw [hc]

/-- Claim C4: a bookmark whose geometry type is none of Point, LineString,
Polygon renders no map feature, emits the unsupported-geometry diagnostic,
and still returns a navigation entry at the fallback center with the
bookmark's configured zoom and tile layer. -/
theorem claim_C4 (net : Net) (fmt2f : ℝ → String) (title : Option String)
    (g : Option GeometryDict) (content : Option (Option ContentDict))
    (style : Option StyleDict) (tl : Option String) (z : Option ℚ)
    (center : ℝ × ℝ) (pc : String)
    (h1 : (g.getD {}).type ≠ some "Point")
    (h2 : (g.getD {}).type ≠ some "LineString")
    (h3 : (g.getD {}).type ≠ some "Polygon")
    (hc : create_bookmark_content net (content.getD (some {})) = .ok pc) :
    add_bookmark_to_map net fmt2f ⟨title, g, content, style, tl, z⟩ center =
      .ok { features := [],
            diagnostics := ["Unsupported geometry type: " ++ pyOptStr (g.getD {}).type],
            nav := { lat := center.1, lon := center.2, zoom := z.getD 13,
                     tile_layer := tl.getD "Positron" } } := by
  rw [add_bookmark_popup_ok hc]
  simp only [addBookmarkCore]
  rw [if_neg h1, if_neg h2, if_neg h3]

/-- Claim C4, witness: an unsupported `Circle` geometry with no content. -/
theorem claim_C4_witness :
    add_bookmark_to_map (fun _ => .transportError) (fun _ => "")
        ⟨some "X", some ⟨some "Circle", .empty⟩, none, none, none, none⟩ ((0:ℝ), (0:ℝ)) =
      .ok { features := [],
            diagnostics := ["Unsupported geometry type: Circle"],
            nav := { lat := 0, lon := 0, zoom := 13, tile_layer := "Positron" } } :=
  claim_C4 (fun _ => .transportError) (fun _ => "") (some "X")
    (some ⟨some "Circle", .empty⟩) none none none none ((0:ℝ), (0:ℝ)) ""
    (by decide) (by decide) (by decide) rfl

/-- Claim C10: `add_bookmark_to_map` on a Point bookmark degrades to the
default `info-sign` icon when the content key is absent or an empty
mapping, but raises `AttributeError` (via `content.get('type', ...)` on
`None`) when the content key is present with a null value. -/
theorem claim_C10 (net : Net) (fmt2f : ℝ → String) (title : Option String)
    (style : Option StyleDict) (tl : Option String) (z : Option ℚ)
    (lon lat : ℝ) (center : ℝ × ℝ) :
    (∀ content : Option (Option ContentDict),
        content = none ∨ content = some (some {}) →
        add_bookmark_to_map net fmt2f
            ⟨title, some ⟨some "Point", .pair lon lat⟩, content, style, tl, z⟩ center =
          .ok { features := [.marker (lat, lon) "" "info-sign" (title.getD "Untitled")],
                diagnostics := [],
                nav := { lat := lat, lon := lon, zoom := z.getD 13,
                         tile_layer := tl.getD "Positron" } })
    ∧ add_bookmark_to_map net fmt2f
          ⟨title, some ⟨some "Point", .pair lon lat⟩, some none, style, tl, z⟩ center =
        .error .attributeError := by
  constructor
  · rintro content (rfl | rfl) <;> rfl
  · rfl

/-- Claim C10, witness: absent content yields the marker with the default
icon at a concrete Point bookmark. -/
theorem claim_C10_witness :
    add_bookmark_to_map (fun _ => .transportError) (fun _ => "")
        ⟨some "P", some ⟨some "Point", .pair 1 2⟩, none, none, none, none⟩ ((0:ℝ), (0:ℝ)) =
      .ok { features := [.marker ((2:ℝ), (1:ℝ)) "" "info-sign" "P"],
            diagnostics := [],
            nav := { lat := 2, lon := 1, zoom := 13, tile_layer := "Positron" } } :=
  (claim_C10 (fun _ => .transportError) (fun _ => "") (some "P") none none none
    1 2 ((0:ℝ), (0:ℝ))).1 none (Or.inl rfl)

/-- Claim C7: for every LineString bookmark the rendered polyline's popup
is the content-builder output with the length paragraph
`<p>Length: N.NN miles</p>` appended (the length in miles, `.2f`
formatted), and when the builder output is empty a minimal popup holding
the bookmark title and the length paragraph is created instead. -/
theorem claim_C7 (net : Net) (fmt2f : ℝ → String) (title : Option String)
    (content : Option (Option ContentDict)) (style : Option StyleDict)
    (tl : Option String) (z : Option ℚ) (pts : List (ℝ × ℝ)) (center : ℝ × ℝ)
    (pc : String) (hlen : 2 ≤ pts.length)
    (hc : create_bookmark_content net (content.getD (some {})) = .ok pc) :
    ∃ r : RenderResult,
      add_bookmark_to_map net fmt2f
          ⟨title, some ⟨some "LineString", .list1 pts⟩, content, style, tl, z⟩ center =
        .ok r ∧
      r.features.map Feature.popup =
        [if pc = "" then
            "<div class=\x27modal-content\x27><h3>" ++ title.getD "Untitled" ++
              "</h3><p>Length: " ++ fmt2f (lineLengthMiles pts) ++ " miles</p></div>"
          else pc ++ "<p>Length: " ++ fmt2f (lineLengthMiles pts) ++ " miles</p>"] := by
  rw [add_bookmark_popup_ok hc]
  have hne1 : ¬ (pts.length = 1) := by omega
  have hlt : (pts.map fun p => (p.2, p.1)).length / 2 < (pts.map fun p => (p.2, p.1)).length := by
    rw [List.length_map]
    exact Nat.div_lt_self (by omega) (by norm_num)
  have hget := List.getElem?_eq_getElem hlt
  refine ⟨{ features := [.polyline (pts.map fun p => (p.2, p.1))
              ((style.getD {}).color.getD "blue") ((style.getD {}).weight.getD 5)
              ((style.getD {}).opacity.getD 0.7) (title.getD "Untitled")
              (if pc = "" then
                  "<div class=\x27modal-content\x27><h3>" ++ title.getD "Untitled" ++ "</h3><p>" ++
                    ("Length: " ++ fmt2f (lineLengthMiles pts) ++ " miles") ++ "</p></div>"
                else pc ++ "<p>" ++ ("Length: " ++ fmt2f (lineLengthMiles pts) ++ " miles") ++ "</p>")],
            diagnostics := [],
            nav := { lat := ((pts.map fun p => (p.2, p.1))[(pts.map fun p => (p.2, p.1)).length / 2]).1,
                     lon := ((pts.map fun p => (p.2, p.1))[(pts.map fun p => (p.2, p.1)).length / 2]).2,
                     zoom := z.getD 13, tile_layer := tl.getD "Positron" } }, ?_, ?_⟩
  · simp only [addBookmarkCore, Option.getD_some, Option.some.injEq, String.reduceEq,
      if_true, if_false, calculate_line_length, hne1, hget]
  · by_cases hpc : pc = "" <;> simp only [Feature.popup, List.map_cons, List.map_nil, hpc,
      if_true, if_false, ite_true, ite_false, List.cons.injEq, and_true] <;>
      · apply String.ext
        simp

/-- Claim C7, witness: a two-point line with no content gets the minimal
popup with the title and the length paragraph. -/
theorem claim_C7_witness :
    ∃ r : RenderResult,
      add_bookmark_to_map (fun _ => .transportError) (fun _ => "1.00")
          ⟨some "L", some ⟨some "LineString", .list1 [((0:ℝ), (0:ℝ)), ((1:ℝ), (0:ℝ))]⟩,
            none, none, none, none⟩ ((0:ℝ), (0:ℝ)) = .ok r ∧
      r.features.map Feature.popup =
        ["<div class=\x27modal-content\x27><h3>L</h3><p>Length: 1.00 miles</p></div>"] := by
  obtain ⟨r, h1, h2⟩ := claim_C7 (fun _ => .transportError) (fun _ => "1.00") (some "L")
    none none none none [((0:ℝ), (0:ℝ)), ((1:ℝ), (0:ℝ))] ((0:ℝ), (0:ℝ)) ""
    (by simp) rfl
  refine ⟨r, h1, ?_⟩
  rw [h2]
  rfl

/-- Claim C8, counterexample: a Polygon bookmark whose outer ring is the
three-point explicitly-closed ring `[(0,0),(1,1),(0,0)]` makes
`add_bookmark_to_map` raise inside the `Polygon` constructor, so no
navigation entry is produced and the claim's "every Polygon bookmark"
is false. -/
theorem claim_C8_counterexample :
    add_bookmark_to_map (fun _ => .transportError) (fun _ => "")
        ⟨some "P", some ⟨some "Polygon",
            .list2 [[((0:ℝ), (0:ℝ)), ((1:ℝ), (1:ℝ)), ((0:ℝ), (0:ℝ))]]⟩,
          none, none, none, none⟩ ((0:ℝ), (0:ℝ)) = .error .valueError := by
  rw [@add_bookmark_popup_ok (fun _ => HttpAttempt.transportError) (fun _ => "")
    ⟨some "P", some ⟨some "Polygon",
        .list2 [[((0:ℝ), (0:ℝ)), ((1:ℝ), (1:ℝ)), ((0:ℝ), (0:ℝ))]]⟩,
      none, none, none, none⟩ ((0:ℝ), (0:ℝ)) "" rfl]
  simp only [addBookmarkCore, Option.getD_some, Option.some.injEq, String.reduceEq,
    if_true, if_false, polygon_area_closed_triangle]

/-- Claim C8, amended: for every Polygon bookmark whose outer ring has at
least three vertices and is not a three-point explicitly-closed ring, the
navigation entry's lat and lon are the arithmetic means of the outer-ring
vertex latitudes and longitudes respectively. -/
theorem claim_C8 (net : Net) (fmt2f : ℝ → String) (title : Option String)
    (content : Option (Option ContentDict)) (style : Option StyleDict)
    (tl : Option String) (z : Option ℚ) (outer : List (ℝ × ℝ))
    (rest : List (List (ℝ × ℝ))) (center : ℝ × ℝ) (pc : String)
    (hlen : 3 ≤ outer.length)
    (hopen : outer.length = 3 → outer.head? ≠ outer.getLast?)
    (hc : create_bookmark_content net (content.getD (some {})) = .ok pc) :
    ∃ r : RenderResult,
      add_bookmark_to_map net fmt2f
          ⟨title, some ⟨some "Polygon", .list2 (outer :: rest)⟩, content, style, tl, z⟩
          center = .ok r ∧
      r.nav.lat = (outer.map Prod.snd).sum / (outer.length : ℝ) ∧
      r.nav.lon = (outer.map Prod.fst).sum / (outer.length : ℝ) := by
  rw [add_bookmark_popup_ok hc]
  have hno : ¬ (outer.length = 1 ∨ outer.length = 2 ∨
      (outer.length = 3 ∧ outer.head? = outer.getLast?)) := by
    rintro (h1 | h2 | ⟨h3, hcl⟩)
    · omega
    · omega
    · exact hopen h3 hcl
  have hz : ¬ ((outer.map fun p => (p.2, p.1)).length = 0) := by
    rw [List.length_map]; omega
  refine ⟨{ features := [.filledPolygon (outer.map fun p => (p.2, p.1))
              ((style.getD {}).color.getD "red") ((style.getD {}).weight.getD 2)
              ((style.getD {}).fillColor.getD "red") ((style.getD {}).fillOpacity.getD 0.5)
              (title.getD "Untitled")
              (if pc = "" then
                  "<div class=\x27modal-content\x27><h3>" ++ title.getD "Untitled" ++ "</h3><p>" ++
                    ("Area: " ++ fmt2f (ringArea (outer.map webMercator) / 2590000) ++
                      " square miles") ++ "</p></div>"
                else pc ++ "<p>" ++
                  ("Area: " ++ fmt2f (ringArea (outer.map webMercator) / 2590000) ++
                    " square miles") ++ "</p>")],
            diagnostics := [],
            nav := { lat := ((outer.map fun p => (p.2, p.1)).map Prod.fst).sum /
                       (((outer.map fun p => (p.2, p.1)).length : ℕ) : ℝ),
                     lon := ((outer.map fun p => (p.2, p.1)).map Prod.snd).sum /
                       (((outer.map fun p => (p.2, p.1)).length : ℕ) : ℝ),
                     zoom := z.getD 13, tile_layer := tl.getD "Positron" } }, ?_, ?_, ?_⟩
  · simp only [addBookmarkCore, Option.getD_some, Option.some.injEq, String.reduceEq,
      if_true, if_false, calculate_polygon_area, hno, hz]
  · simp only [List.map_map, List.length_map]
    rfl
  · simp only [List.map_map, List.length_map]
    rfl

/-- Claim C8, witness: a concrete triangle. -/
theorem claim_C8_witness :
    ∃ r : RenderResult,
      add_bookmark_to_map (fun _ => .transportError) (fun _ => "")
          ⟨some "P", some ⟨some "Polygon",
              .list2 [[((0:ℝ), (0:ℝ)), ((4:ℝ), (0:ℝ)), ((0:ℝ), (4:ℝ))]]⟩,
            none, none, none, none⟩ ((0:ℝ), (0:ℝ)) = .ok r ∧
      r.nav.lat = ([((0:ℝ), (0:ℝ)), ((4:ℝ), (0:ℝ)), ((0:ℝ), (4:ℝ))].map Prod.snd).sum /
        (((3:ℕ)) : ℝ) ∧
      r.nav.lon = ([((0:ℝ), (0:ℝ)), ((4:ℝ), (0:ℝ)), ((0:ℝ), (4:ℝ))].map Prod.fst).sum /
        (((3:ℕ)) : ℝ) :=
  claim_C8 (fun _ => .transportError) (fun _ => "") (some "P") none none none none
    [((0:ℝ), (0:ℝ)), ((4:ℝ), (0:ℝ)), ((0:ℝ), (4:ℝ))] [] ((0:ℝ), (0:ℝ)) ""
    (by simp) (by intro _; simp [Prod.ext_iff]) rfl

/-- A successful `exceptMapM` yields one output per input. -/
theorem exceptMapM_ok_length {α ε β : Type _} (f : α → Except ε β) :
    ∀ (l : List α) (rs : List β), exceptMapM f l = .ok rs → rs.length = l.length := by
  intro l
  induction l with
  | nil =>
      intro rs h
      simp only [exceptMapM] at h
      cases h
      rfl
  | cons a as ih =>
      intro rs h
      cases hfa : f a with
      | error e =>
          simp only [exceptMapM, hfa] at h
          cases h
      | ok b =>
          cases hrec : exceptMapM f as with
          | error e =>
              simp only [exceptMapM, hfa, hrec] at h
              cases h
          | ok bs =>
              simp only [exceptMapM, hfa, hrec] at h
              cases h
              simp [ih bs hrec]

/-- A successful `exceptMapM` computes each output from the input at the
same position. -/
theorem exceptMapM_ok_get {α ε β : Type _} (f : α → Except ε β) :
    ∀ (l : List α) (rs : List β), exceptMapM f l = .ok rs →
      ∀ (i : Nat) (h1 : i < l.length) (h2 : i < rs.length),
        f (l.get ⟨i, h1⟩) = .ok (rs.get ⟨i, h2⟩) := by
  intro l
  induction l with
  | nil =>
      intro rs h i h1 h2
      exact absurd h1 (by simp)
  | cons a as ih =>
      intro rs h i h1 h2
      cases hfa : f a with
      | error e =>
          simp only [exceptMapM, hfa] at h
          cases h
      | ok b =>
          cases hrec : exceptMapM f as with
          | error e =>
              simp only [exceptMapM, hfa, hrec] at h
              cases h
          | ok bs =>
              simp only [exceptMapM, hfa, hrec] at h
              cases h
              cases i with
              | zero => exact hfa
              | succ j =>
                  exact ih bs hrec j (Nat.lt_of_succ_lt_succ h1) (Nat.lt_of_succ_lt_succ h2)

/-- Claim C9: for an input list of n bookmarks, `create_map` builds a
navigation index of exactly n entries keyed 0..n-1 in input order (entry i
being the i-th bookmark's navigation entry) and a navigation pane of
exactly n links in input order, link i invoking `zoomToLocation(i)`. -/
theorem claim_C9 (net : Net) (fmt2f : ℝ → String) (bookmarks : List Bookmark)
    (center : ℝ × ℝ) (locations : List (Nat × NavEntry)) (links : List String)
    (h : create_map_nav net fmt2f bookmarks center = .ok (locations, links)) :
    locations.length = bookmarks.length ∧
    locations.map Prod.fst = List.range bookmarks.length ∧
    (∀ (i : Nat) (h1 : i < bookmarks.length) (h2 : i < locations.length),
      ∃ r, add_bookmark_to_map net fmt2f (bookmarks.get ⟨i, h1⟩) center = .ok r ∧
        locations.get ⟨i, h2⟩ = (i, r.nav)) ∧
    links.length = bookmarks.length ∧
    (∀ (i : Nat) (h1 : i < bookmarks.length) (h2 : i < links.length),
      ∃ t, (bookmarks.get ⟨i, h1⟩).title = some t ∧ links.get ⟨i, h2⟩ = nav_link i t) := by
  cases hres : exceptMapM (fun b => add_bookmark_to_map net fmt2f b center) bookmarks with
  | error e =>
      simp only [create_map_nav, hres] at h
      cases h
  | ok results =>
      cases hlinks : exceptMapM (fun p : Nat × Bookmark =>
          match p.2.title with
          | none => .error PyErr.keyError
          | some t => .ok (nav_link p.1 t)) bookmarks.enum with
      | error e =>
          simp only [create_map_nav, hres, hlinks] at h
          cases h
      | ok ls =>
          simp only [create_map_nav, hres, hlinks] at h
          cases h
          have hrl : results.length = bookmarks.length :=
            exceptMapM_ok_length _ _ _ hres
          have hml : (results.map RenderResult.nav).length = bookmarks.length := by
            simp [hrl]
          have hll : links.length = bookmarks.length := by
            have := exceptMapM_ok_length _ _ _ hlinks
            simpa using this
          refine ⟨?_, ?_, ?_, hll, ?_⟩
          · simp [List.length_zip, hml]
          · exact List.map_fst_zip _ _ (by simp [hml])
          · intro i h1 h2
            have hi3 : i < results.length := by rw [hrl]; exact h1
            refine ⟨results.get ⟨i, hi3⟩, exceptMapM_ok_get _ _ _ hres i h1 hi3, ?_⟩
            simp [List.get_eq_getElem, List.getElem_zip, List.getElem_range,
              List.getElem_map]
          · intro i h1 h2
            have hi4 : i < bookmarks.enum.length := by simpa using h1
            have hstep := exceptMapM_ok_get _ _ _ hlinks i hi4 h2
            rw [List.get_eq_getElem, List.getElem_enum] at hstep
            cases ht : (bookmarks.get ⟨i, h1⟩).title with
            | none =>
                rw [List.get_eq_getElem] at ht
                simp only [ht] at hstep
                cases hstep
            | some t =>
                rw [List.get_eq_getElem] at ht
                simp only [ht] at hstep
                exact ⟨t, rfl, (Except.ok.inj hstep).symm⟩

/-- Claim C9, witness: one Point bookmark yields a one-entry index with
key 0 and one navigation link. -/
theorem claim_C9_witness :
    ∃ (locations : List (Nat × NavEntry)) (links : List String),
      create_map_nav (fun _ => .transportError) (fun _ => "")
          [⟨some "A", some ⟨some "Point", .pair 1 2⟩, none, none, none, none⟩]
          ((0:ℝ), (0:ℝ)) = .ok (locations, links) ∧
      locations.map Prod.fst = List.range 1 ∧ links.length = 1 := by
  obtain ⟨locations, links, hok⟩ :
      ∃ a b, create_map_nav (fun _ => .transportError) (fun _ => "")
        [⟨some "A", some ⟨some "Point", .pair 1 2⟩, none, none, none, none⟩]
        ((0:ℝ), (0:ℝ)) = .ok (a, b) := ⟨_, _, rfl⟩
  have hmain := claim_C9 _ _ _ _ _ _ hok
  refine ⟨locations, links, hok, ?_, ?_⟩
  · rw [hmain.2.1]
    rfl
  · rw [hmain.2.2.2.1]
    rfl
